import Mathlib

/-!
Verification of the retrieval-confidence-and-deduplication pipeline of the
chatbot repository (llm_query.js, db_singleton.js, app.js).

Numbers are modelled as real numbers (the JavaScript code computes with
IEEE doubles; the idealized real-number semantics is used throughout).
Fallible JavaScript code (functions that can throw) is modelled with
`Except String`.
-/

namespace Chatbot

/-! ## SimilarityScorer (llm_query.js, `cosineSimilarity`, lines 23-43)

The source computes `dotProduct`, `normA` and `normB` in a single loop over
`i < vectorA.length` (the guard ensures both vectors have that length).  We
embed the three accumulated sums as structural recursions over the lists,
which agree with the loop under the equal-length guard. -/

/-- Sum of pairwise products, `dotProduct += vectorA[i] * vectorB[i]`. -/
def dotProduct : List ℝ → List ℝ → ℝ
  | a :: as, b :: bs => a * b + dotProduct as bs
  | _, _ => 0

/-- Sum of squares of one vector, `normA += vectorA[i] * vectorA[i]`
(the source variable named `normA` holds the squared Euclidean norm). -/
def sumSq : List ℝ → ℝ
  | [] => 0
  | x :: xs => x * x + sumSq xs

open Classical

/-- `cosineSimilarity(vectorA, vectorB)` (llm_query.js lines 23-43):
throws when the lengths differ, returns 0 when either squared norm is
exactly 0, and otherwise returns `dotProduct / (sqrt normA * sqrt normB)`. -/
noncomputable def cosineSimilarity (vectorA vectorB : List ℝ) : Except String ℝ :=
  if vectorA.length ≠ vectorB.length then
    .error "Vectors must have the same dimensions"
  else
    let dot := dotProduct vectorA vectorB
    let normA := sumSq vectorA
    let normB := sumSq vectorB
    if normA = 0 ∨ normB = 0 then
      .ok 0
    else
      .ok (dot / (Real.sqrt normA * Real.sqrt normB))

/-! ### Facts about the scorer -/

theorem dotProduct_comm (a b : List ℝ) : dotProduct a b = dotProduct b a := by
  induction a generalizing b with
  | nil => cases b <;> rfl
  | cons x as ih =>
    cases b with
    | nil => rfl
    | cons y bs => simp only [dotProduct, ih, mul_comm]

theorem sumSq_eq_dotProduct_self (v : List ℝ) : sumSq v = dotProduct v v := by
  induction v with
  | nil => rfl
  | cons x xs ih => simp only [sumSq, dotProduct, ih]

theorem dotProduct_eq_sum (a b : List ℝ) :
    dotProduct a b = ∑ i ∈ Finset.range a.length, a.getD i 0 * b.getD i 0 := by
  induction a generalizing b with
  | nil => simp [dotProduct]
  | cons x as ih =>
    cases b with
    | nil => simp [dotProduct, List.getD_nil]
    | cons y bs =>
      simp only [dotProduct, List.length_cons]
      rw [Finset.sum_range_succ']
      simp only [List.getD_cons_succ, List.getD_cons_zero]
      rw [ih bs]
      ring

theorem sumSq_eq_sum (v : List ℝ) :
    sumSq v = ∑ i ∈ Finset.range v.length, v.getD i 0 ^ 2 := by
  rw [sumSq_eq_dotProduct_self, dotProduct_eq_sum]
  refine Finset.sum_congr rfl fun i _ => ?_
  ring

theorem sumSq_nonneg (v : List ℝ) : 0 ≤ sumSq v := by
  rw [sumSq_eq_sum]
  exact Finset.sum_nonneg fun i _ => sq_nonneg _

/-- Cauchy–Schwarz for the list-level sums (equal lengths suffice for how
`cosineSimilarity` uses it). -/
theorem abs_dotProduct_le (a b : List ℝ) (h : a.length = b.length) :
    |dotProduct a b| ≤ Real.sqrt (sumSq a) * Real.sqrt (sumSq b) := by
  have ha : sumSq a = ∑ i ∈ Finset.range a.length, a.getD i 0 ^ 2 := sumSq_eq_sum a
  have hb : sumSq b = ∑ i ∈ Finset.range a.length, b.getD i 0 ^ 2 := by
    rw [sumSq_eq_sum, h]
  rw [abs_le]
  constructor
  · have hcs := Real.sum_mul_le_sqrt_mul_sqrt (Finset.range a.length)
      (fun i => -(a.getD i 0)) (fun i => b.getD i 0)
    simp only [neg_mul, Finset.sum_neg_distrib, neg_sq] at hcs
    rw [dotProduct_eq_sum, ha, hb]
    linarith [hcs]
  · have hcs := Real.sum_mul_le_sqrt_mul_sqrt (Finset.range a.length)
      (fun i => a.getD i 0) (fun i => b.getD i 0)
    rw [dotProduct_eq_sum, ha, hb]
    exact hcs

theorem cosineSimilarity_error_iff (a b : List ℝ) :
    cosineSimilarity a b = .error "Vectors must have the same dimensions" ↔
      a.length ≠ b.length := by
  unfold cosineSimilarity
  by_cases h : a.length = b.length
  · by_cases h0 : sumSq a = 0 ∨ sumSq b = 0 <;> simp [h, h0]
  · simp [h]

theorem cosineSimilarity_ok_of_zero (a b : List ℝ) (h : a.length = b.length)
    (h0 : sumSq a = 0 ∨ sumSq b = 0) : cosineSimilarity a b = .ok 0 := by
  unfold cosineSimilarity
  simp [h, h0]

theorem cosineSimilarity_ok_of_ne_zero (a b : List ℝ) (h : a.length = b.length)
    (ha : sumSq a ≠ 0) (hb : sumSq b ≠ 0) :
    cosineSimilarity a b =
      .ok (dotProduct a b / (Real.sqrt (sumSq a) * Real.sqrt (sumSq b))) := by
  unfold cosineSimilarity
  simp [h, ha, hb]

/-- Whenever `cosineSimilarity` returns a value, that value lies in [-1, 1]. -/
theorem cosineSimilarity_mem_Icc (a b : List ℝ) (r : ℝ)
    (hok : cosineSimilarity a b = .ok r) : -1 ≤ r ∧ r ≤ 1 := by
  by_cases h : a.length = b.length
  · by_cases h0 : sumSq a = 0 ∨ sumSq b = 0
    · rw [cosineSimilarity_ok_of_zero a b h h0] at hok
      cases hok
      norm_num
    · push_neg at h0
      rw [cosineSimilarity_ok_of_ne_zero a b h h0.1 h0.2] at hok
      cases hok
      have hA : 0 < Real.sqrt (sumSq a) :=
        Real.sqrt_pos.mpr (lt_of_le_of_ne (sumSq_nonneg a) (Ne.symm h0.1))
      have hB : 0 < Real.sqrt (sumSq b) :=
        Real.sqrt_pos.mpr (lt_of_le_of_ne (sumSq_nonneg b) (Ne.symm h0.2))
      have habs := abs_dotProduct_le a b h
      rw [abs_le] at habs
      constructor
      · rw [neg_le, ← neg_div]
        exact div_le_one_of_le₀ (by linarith [habs.1]) (by positivity)
      · exact div_le_one_of_le₀ habs.2 (by positivity)
  · rw [(cosineSimilarity_error_iff a b).mpr h] at hok
    cases hok

/-! ## Data model of the pipeline (llm_query.js) -/

/-- Message roles: the guard loop tests `message.role === 'human'`; the answer
is appended as a system-authored (ai) message. -/
inductive Role
  | human
  | ai
deriving DecidableEq

/-- A chat message: role plus text content. -/
structure Message where
  role : Role
  content : String
deriving DecidableEq

/-- Document metadata; only the `url` field matters to this pipeline
(`none` models an absent field, `some ""` an empty one — both falsy in JS). -/
structure DocMetadata where
  url : Option String
deriving DecidableEq

/-- A retrieved knowledge-base Document: `pageContent` plus optional metadata
(JS documents may lack the `metadata` object entirely). -/
structure Document where
  pageContent : String
  metadata : Option DocMetadata
deriving DecidableEq

/-- External collaborators of the pipeline, passed in as a deterministic
environment: the embedding provider, the similarity retriever (k = 6), the
CHAT_MODEL environment variable, and the two language-model calls made by the
conversational chain (query contextualization and grounded answering).  The
two model calls may fail (`Except`), which models thrown upstream errors. -/
structure Env where
  embed : String → List ℝ
  retrieve : String → List Document
  chatModelEnv : Option String
  rephrase : String → String → List Message → Except String String
  answerLlm : String → String → List Message → List Document → Except String String

/-- Observable external calls made while serving one question: a retriever
invocation (with the query used), a contextualization language-model call,
and a grounded-answer language-model call (with the documents it was given). -/
inductive Event
  | retrieveEv (query : String)
  | rephraseEv
  | answerEv (docs : List Document)
deriving DecidableEq

/-- Module-level mutable state of llm_query.js: the `chatHistoriesStore`
object (line 19) and the `currentModel` variable (line 20). -/
structure PipelineState where
  chatHistoriesStore : String → Option (List Message)
  currentModel : Option String

/-- State at module load: empty store, `currentModel = null`. -/
def initialState : PipelineState :=
  { chatHistoriesStore := fun _ => none, currentModel := none }

/-- `getSessionHistory` (llm_query.js lines 55-60): lazily creates an empty
history for an unknown session id. -/
def getSessionHistory (sessionId : String) (st : PipelineState) :
    List Message × PipelineState :=
  match st.chatHistoriesStore sessionId with
  | some h => (h, st)
  | none =>
      ([], { st with chatHistoriesStore :=
          fun k => if k = sessionId then some [] else st.chatHistoriesStore k })

/-- `areQuestionsSimilar(question1, question2, threshold)` (lines 46-52):
embeds both questions and compares the cosine similarity to the threshold
(default 0.85 at its call site). -/
noncomputable def areQuestionsSimilar (env : Env) (question1 question2 : String)
    (threshold : ℝ) : Except String Bool :=
  match cosineSimilarity (env.embed question1) (env.embed question2) with
  | .error e => .error e
  | .ok similarity => .ok (decide (threshold ≤ similarity))

/-- The duplicate-question loop of `getResponse` (lines 171-177): scan the
session history in order; on the first human message whose similarity check
returns true, report a duplicate.  A thrown error propagates. -/
noncomputable def checkDuplicates (env : Env) (userQuestion : String) :
    List Message → Except String Bool
  | [] => .ok false
  | message :: rest =>
    if message.role = Role.human then
      match areQuestionsSimilar env userQuestion message.content (0.85 : ℝ) with
      | .error e => .error e
      | .ok true => .ok true
      | .ok false => checkDuplicates env userQuestion rest
    else
      checkDuplicates env userQuestion rest

/-- `getConfidenceScore(query, document)` (lines 159-164). -/
noncomputable def getConfidenceScore (env : Env) (query doc : String) :
    Except String ℝ :=
  cosineSimilarity (env.embed query) (env.embed doc)

/-- `Promise.all(retrievedDocs.map(doc => getConfidenceScore(...)))`
(lines 183-185): all scores, or the first thrown error. -/
noncomputable def computeScores (env : Env) (userQuestion : String) :
    List Document → Except String (List ℝ)
  | [] => .ok []
  | doc :: docs =>
    match getConfidenceScore env userQuestion doc.pageContent with
    | .error e => .error e
    | .ok s =>
      match computeScores env userQuestion docs with
      | .error e => .error e
      | .ok rest => .ok (s :: rest)

/-- `Math.max(...confidenceScores)` on a non-empty list (the empty case is
unreachable behind the emptiness guard at line 187). -/
def maxScores : List ℝ → ℝ
  | [] => 0
  | s :: rest => rest.foldl max s

/-- JS `a || b` on an environment-variable string: `undefined` and the empty
string are falsy. -/
def jsOr (value : Option String) (fallback : String) : String :=
  match value with
  | none => fallback
  | some s => if s = "" then fallback else s

/-- Model selection in `setupLlmAndDb` (lines 65-81):
`process.env.CHAT_MODEL || 'ChatOpenAI'`; ChatOpenAI maps to gpt-4o,
anything else to claude-3-5-sonnet-20240620. -/
def chooseModelName (chatModelEnv : Option String) : String :=
  if jsOr chatModelEnv "ChatOpenAI" = "ChatOpenAI" then "gpt-4o"
  else "claude-3-5-sonnet-20240620"

/-- The observable effect of `setupLlmAndDb` (lines 63-156): picks the model,
assigns the module-level `currentModel`, and builds the conversational chain
(the chain construction itself performs no external calls). -/
def setupLlmAndDb (env : Env) (st : PipelineState) : String × PipelineState :=
  let modelName := chooseModelName env.chatModelEnv
  (modelName, { st with currentModel := some modelName })

/-- Modelled from the spec: the history-aware retrieval chain built by
`createHistoryAwareRetriever` / `createStuffDocuments` / `createRetrieval`
(library combinators configured in setupLlmAndDb, lines 94-144; the
combinators themselves are not part of this repository).  Per spec section
4.4: with an empty chat history the raw input drives retrieval; otherwise the
model first rewrites the question into a standalone form, retrieval runs on
the contextualized query, and the grounded answer is produced from the
documents so retrieved.  Returns the answer together with the documents
given to the answering model, plus the trace of external calls. -/
def invokeRagChain (env : Env) (modelName input : String)
    (chatHistory : List Message) :
    Except String (String × List Document) × List Event :=
  let contextualizedStep : Except String String × List Event :=
    if chatHistory = [] then (.ok input, [])
    else
      match env.rephrase modelName input chatHistory with
      | .error e => (.error e, [.rephraseEv])
      | .ok q => (.ok q, [.rephraseEv])
  match contextualizedStep with
  | (.error e, evs) => (.error e, evs)
  | (.ok contextualized, evs) =>
    let docs := env.retrieve contextualized
    match env.answerLlm modelName input chatHistory docs with
    | .error e => (.error e, evs ++ [.retrieveEv contextualized, .answerEv docs])
    | .ok answer =>
        (.ok (answer, docs), evs ++ [.retrieveEv contextualized, .answerEv docs])

/-- Modelled from the spec: `RunnableWithMessageHistory` (configured at
lines 147-153 with `getMessageHistory: getSessionHistory`; library code not
in this repository).  Per spec sections 4.4 and 8: on success it appends the
human question and then the produced answer to the session history; on
failure the error propagates and the history is untouched. -/
def conversationalRagChainInvoke (env : Env) (modelName input sessionId : String)
    (st : PipelineState) : Except String String × PipelineState × List Event :=
  let chatHistory := (getSessionHistory sessionId st).1
  let st1 := (getSessionHistory sessionId st).2
  match invokeRagChain env modelName input chatHistory with
  | (.error e, evs) => (.error e, st1, evs)
  | (.ok (answer, _docs), evs) =>
    (.ok answer,
     { st1 with chatHistoriesStore := fun k =>
         (if k = sessionId then
           some (chatHistory ++ [⟨Role.human, input⟩, ⟨Role.ai, answer⟩])
         else st1.chatHistoriesStore k) },
     evs)

/-- The fixed duplicate-advisory message (line 174). -/
def duplicateAdvisoryMessage : String :=
  "It looks like you\x27re asking a similar question to one you\x27ve already asked. This can lead to increased hallucination. Please refer to the ApostropheCMS documentation links given in the original answer or rephrase your question to be more specific. If you have additional questions, consider joining our Discord community from the link below for further assistance."

/-- The fixed empty-knowledge-base message (line 188). -/
def emptyKnowledgeBaseMessage : String :=
  "I\x27m sorry, the knowledge base appears to be empty. Please contact the administrator."

/-- The fixed low-confidence message (line 196). -/
def lowConfidenceMessage : String :=
  "I\x27m sorry, I cannot provide a confident answer based on the available information in our current RAG database. The specific terms you are using may not exist or not be documented. Please consider rephrasing your question or joining our Discord for additional assistance."

/-- The confidence threshold (line 192). -/
def confidenceThreshold : ℝ := 0.7

/-- `getResponse(userQuestion, retriever, sessionId)` (lines 167-210):
duplicate guard, retrieval, confidence gate, then chain setup and
invocation.  Returns the result (answer or propagated error), the updated
module state, and the trace of external calls. -/
noncomputable def getResponse (env : Env) (userQuestion sessionId : String)
    (st : PipelineState) : Except String String × PipelineState × List Event :=
  let sessionHistory := (getSessionHistory sessionId st).1
  let st1 := (getSessionHistory sessionId st).2
  match checkDuplicates env userQuestion sessionHistory with
  | .error e => (.error e, st1, [])
  | .ok true => (.ok duplicateAdvisoryMessage, st1, [])
  | .ok false =>
    let retrievedDocs := env.retrieve userQuestion
    match computeScores env userQuestion retrievedDocs with
    | .error e => (.error e, st1, [.retrieveEv userQuestion])
    | .ok confidenceScores =>
      if confidenceScores.length = 0 then
        (.ok emptyKnowledgeBaseMessage, st1, [.retrieveEv userQuestion])
      else if maxScores confidenceScores < confidenceThreshold then
        (.ok lowConfidenceMessage, st1, [.retrieveEv userQuestion])
      else
        let modelName := (setupLlmAndDb env st1).1
        let st2 := (setupLlmAndDb env st1).2
        let r := conversationalRagChainInvoke env modelName userQuestion sessionId st2
        (r.1, r.2.1, .retrieveEv userQuestion :: r.2.2)

/-- `getResponse` called without its third argument, which defaults to
the fixed identifier (line 167: `sessionId = 'default_session'`). -/
noncomputable def getResponseDefault (env : Env) (userQuestion : String)
    (st : PipelineState) : Except String String × PipelineState × List Event :=
  getResponse env userQuestion "default_session" st

/-- `getCurrentModel` (lines 213-215). -/
def getCurrentModel (st : PipelineState) : Option String :=
  st.currentModel

/-! ## Document metadata fix-up (db_singleton.js, `fixDocumentMetadata`,
lines 121-167) -/

/-- JS truthiness of a string: the empty string is falsy. -/
def jsTruthyStr (s : String) : Bool := !(s == "")

/-- JS falsiness of an optional url field: `undefined` and `""` are falsy. -/
def jsFalsyUrl : Option String → Bool
  | none => true
  | some s => s == ""

/-- Does the character list start with the pattern (first argument)? -/
def charsStartWith : List Char → List Char → Bool
  | [], _ => true
  | _ :: _, [] => false
  | p :: ps, c :: cs => p == c && charsStartWith ps cs

/-- Substring containment on character lists. -/
def charsContains : List Char → List Char → Bool
  | [], pat => pat.isEmpty
  | c :: rest, pat => charsStartWith pat (c :: rest) || charsContains rest pat

/-- Remove the first occurrence of the pattern (second argument), if any. -/
def replaceOnceChars : List Char → List Char → List Char
  | [], _pat => []
  | c :: rest, pat =>
    if charsStartWith pat (c :: rest) then List.drop pat.length (c :: rest)
    else c :: replaceOnceChars rest pat

/-- Split a character list at every occurrence of the separator character
(JS `split` semantics: the empty string splits to one empty field). -/
def splitChar (sep : Char) : List Char → List (List Char)
  | [] => [[]]
  | c :: rest =>
    match splitChar sep rest with
    | [] => if c == sep then [[], []] else [[c]]
    | g :: gs => if c == sep then [] :: g :: gs else (c :: g) :: gs

/-- Join character lists with the separator character (JS `join`). -/
def joinChar (sep : Char) : List (List Char) → List Char
  | [] => []
  | [g] => g
  | g :: gs => g ++ sep :: joinChar sep gs

/-- ASCII whitespace, as trimmed by JS `trim` on the strings in play. -/
def isJsSpace (c : Char) : Bool := c == ' ' || c == '\t' || c == '\n' || c == '\r'

/-- JS `s.includes(pat)`. -/
def jsIncludes (s pat : String) : Bool := charsContains s.data pat.data

/-- JS `s.replace(pat, "")`: removes the first occurrence of `pat` only. -/
def jsReplaceOnce (s pat : String) : String := ⟨replaceOnceChars s.data pat.data⟩

/-- JS `s.trim()`. -/
def jsTrim (s : String) : String :=
  ⟨((s.data.dropWhile isJsSpace).reverse.dropWhile isJsSpace).reverse⟩

/-- JS `s.split('\n')`. -/
def jsSplitLines (s : String) : List String :=
  (splitChar '\n' s.data).map fun g => ⟨g⟩

/-- JS `lines.join('\n')`. -/
def jsJoinLines (lines : List String) : String :=
  ⟨joinChar '\n' (lines.map String.data)⟩

/-- The literal fallback url (db_singleton.js line 162). -/
def defaultDocUrl : String := "https://docs.apostrophecms.org/"

/-- The per-document body of `fixDocumentMetadata` (lines 122-163): normalize
missing metadata to an empty object (the dynamic `typeof` re-check collapses
in this typed model), extract a `Reference URL:` line into `metadata.url`
when the url is missing, and finally assign the fallback url if still
missing. -/
def fixOneDocument (doc : Document) : Document :=
  let md := doc.metadata.getD { url := none }
  let step :=
    if jsFalsyUrl md.url && jsTruthyStr doc.pageContent &&
        jsIncludes doc.pageContent "Reference URL:" then
      let contentLines := jsSplitLines doc.pageContent
      match contentLines.findIdx? (fun line => jsIncludes line "Reference URL:") with
      | some urlLineIndex =>
        let url := jsTrim (jsReplaceOnce (contentLines.getD urlLineIndex "")
          "Reference URL:")
        let newContentLines := contentLines.eraseIdx urlLineIndex
        ({ pageContent := jsJoinLines newContentLines,
           metadata := some { md with url := some url } } : Document)
      | none => { doc with metadata := some md }
    else { doc with metadata := some md }
  let md2 := step.metadata.getD { url := none }
  if jsFalsyUrl md2.url then
    { step with metadata := some { md2 with url := some defaultDocUrl } }
  else step

/-- `fixDocumentMetadata(documents)` (lines 121-167): applies the fix-up to
every document of the list (the JS loop mutates in place and returns the
array). -/
def fixDocumentMetadata (documents : List Document) : List Document :=
  documents.map fixOneDocument

/-! ## Vector-store initialization (db_singleton.js `_initialize`,
lines 25-88, and app.js `initChroma` / `startServer`, lines 75-83, 246-255) -/

/-- Observable steps of the initialization retry loop: a connection attempt
(numbered from 0) and a fixed wait in milliseconds. -/
inductive InitEvent
  | attemptEv (n : ℕ)
  | waitEv (ms : ℕ)
deriving DecidableEq

/-- The `while (retryCount < maxRetries)` loop of `_initialize`: `fuel` is
`maxRetries - retryCount`, so the fuel-0 case is the loop condition turning
false (falling off the end of the function — unreachable from
`chromaInitialize` because the catch block rethrows before that).  The try
block (attempting the Chroma connection) is abstracted as `attemptResult`,
giving the outcome of each numbered attempt. -/
def initializeLoop (attemptResult : ℕ → Except String Unit) (maxRetries : ℕ) :
    (fuel retryCount : ℕ) → Except String Unit × List InitEvent
  | 0, _ => (.ok (), [])
  | fuel + 1, retryCount =>
    match attemptResult retryCount with
    | .ok _ => (.ok (), [.attemptEv retryCount])
    | .error e =>
      if retryCount + 1 ≥ maxRetries then
        (.error e, [.attemptEv retryCount])
      else
        let (r, evs) := initializeLoop attemptResult maxRetries fuel (retryCount + 1)
        (r, .attemptEv retryCount :: .waitEv 2000 :: evs)

/-- `ChromaDB._initialize` (lines 25-88): `maxRetries = 3`, starting from
`retryCount = 0`. -/
def chromaInitialize (attemptResult : ℕ → Except String Unit) :
    Except String Unit × List InitEvent :=
  initializeLoop attemptResult 3 3 0

/-- `initChroma` in app.js (lines 75-83): awaits `ChromaDB.getInstance()`
(which runs `_initialize`), setting the module-level `retriever` on success;
on failure it CATCHES the error and only logs it.  Returns whether the
retriever was set, and the swallowed error if any. -/
def initChroma (attemptResult : ℕ → Except String Unit) : Bool × Option String :=
  match (chromaInitialize attemptResult).1 with
  | .ok _ => (true, none)
  | .error e => (false, some e)

/-- Observable outcome of `startServer` (app.js lines 246-253): whether the
HTTP server ends up listening, whether the retriever was initialized, and
the swallowed Chroma error if any. -/
structure ServerState where
  retrieverSet : Bool
  listening : Bool
  chromaError : Option String
deriving DecidableEq

/-- `startServer` (app.js lines 246-253): `connectToMongo` and `initChroma`
both swallow their errors, after which `server.listen` always runs. -/
def startServer (attemptResult : ℕ → Except String Unit) : ServerState :=
  { retrieverSet := (initChroma attemptResult).1,
    listening := true,
    chromaError := (initChroma attemptResult).2 }

/-! ## Theorems -/

/-- Equal-length vectors never raise the dimension-mismatch error. -/
theorem cosineSimilarity_ok_of_eq_length (a b : List ℝ) (h : a.length = b.length) :
    ∃ r, cosineSimilarity a b = .ok r := by
  by_cases h0 : sumSq a = 0 ∨ sumSq b = 0
  · exact ⟨0, cosineSimilarity_ok_of_zero a b h h0⟩
  · push_neg at h0
    exact ⟨_, cosineSimilarity_ok_of_ne_zero a b h h0.1 h0.2⟩

/-- C6: for every pair of numeric vectors, the similarity computation fails
with the dimension-mismatch error if and only if the lengths differ; for
equal-length vectors it returns exactly 0 when either vector has zero
magnitude (zero sum of squares), and otherwise returns the cosine similarity
`dot / (sqrt normA * sqrt normB)`, a value in [-1, 1]. -/
theorem cosineSimilarity_contract (a b : List ℝ) :
    (cosineSimilarity a b = .error "Vectors must have the same dimensions" ↔
      a.length ≠ b.length) ∧
    (a.length = b.length →
      ((sumSq a = 0 ∨ sumSq b = 0) → cosineSimilarity a b = .ok 0) ∧
      (sumSq a ≠ 0 → sumSq b ≠ 0 →
        cosineSimilarity a b =
          .ok (dotProduct a b / (Real.sqrt (sumSq a) * Real.sqrt (sumSq b))) ∧
        ∀ r, cosineSimilarity a b = .ok r → -1 ≤ r ∧ r ≤ 1)) :=
  ⟨cosineSimilarity_error_iff a b, fun h =>
    ⟨cosineSimilarity_ok_of_zero a b h, fun ha hb =>
      ⟨cosineSimilarity_ok_of_ne_zero a b h ha hb, fun r hr =>
        cosineSimilarity_mem_Icc a b r hr⟩⟩⟩

/-- Witness for C6 at concrete inputs: `[1]` against `[1, 0]` mismatches;
`[0]` against `[1]` has a zero-magnitude argument and yields 0; `[1]`
against `[1]` yields 1, which lies in [-1, 1]. -/
theorem cosineSimilarity_contract_witness :
    ([(1 : ℝ)] : List ℝ).length ≠ ([1, 0] : List ℝ).length ∧
    cosineSimilarity [(1 : ℝ)] [1, 0] = .error "Vectors must have the same dimensions" ∧
    sumSq [(0 : ℝ)] = 0 ∧
    cosineSimilarity [(0 : ℝ)] [1] = .ok 0 ∧
    cosineSimilarity [(1 : ℝ)] [1] = .ok 1 ∧
    (-1 : ℝ) ≤ 1 ∧ (1 : ℝ) ≤ 1 := by
  have hlen : ([(1 : ℝ)] : List ℝ).length ≠ ([1, 0] : List ℝ).length := by simp
  have h1 := (cosineSimilarity_contract [(1 : ℝ)] [1, 0]).1.mpr hlen
  have hz : sumSq [(0 : ℝ)] = 0 := by norm_num [sumSq]
  have h2 := ((cosineSimilarity_contract [(0 : ℝ)] [1]).2 (by simp)).1 (Or.inl hz)
  have hne : sumSq [(1 : ℝ)] ≠ 0 := by norm_num [sumSq]
  obtain ⟨heq, _⟩ := ((cosineSimilarity_contract [(1 : ℝ)] [1]).2 rfl).2 hne hne
  have h3 : cosineSimilarity [(1 : ℝ)] [1] = .ok 1 := by
    rw [heq]
    norm_num [dotProduct, sumSq, Real.sqrt_one]
  exact ⟨hlen, h1, hz, h2, h3, by norm_num, le_refl 1⟩

/-! ### Pipeline lemmas -/

/-- All embeddings produced by the provider have the same dimension (the
spec assumes a single embedding model; mixing dimensions is undefined). -/
def UniformDim (env : Env) (d : ℕ) : Prop := ∀ s, (env.embed s).length = d

theorem areQuestionsSimilar_ok (env : Env) (d : ℕ) (hdim : UniformDim env d)
    (q1 q2 : String) (t : ℝ) : ∃ bl, areQuestionsSimilar env q1 q2 t = .ok bl := by
  obtain ⟨r, hr⟩ := cosineSimilarity_ok_of_eq_length (env.embed q1) (env.embed q2)
    ((hdim q1).trans (hdim q2).symm)
  exact ⟨_, by unfold areQuestionsSimilar; rw [hr]⟩

theorem areQuestionsSimilar_true_iff (env : Env) (q1 q2 : String) (t : ℝ) :
    areQuestionsSimilar env q1 q2 t = .ok true ↔
      ∃ s, cosineSimilarity (env.embed q1) (env.embed q2) = .ok s ∧ t ≤ s := by
  unfold areQuestionsSimilar
  cases hcos : cosineSimilarity (env.embed q1) (env.embed q2) with
  | error e => simp
  | ok s => simp [decide_eq_true_eq]

/-- Under uniform embedding dimension the duplicate scan never throws. -/
theorem checkDuplicates_ok (env : Env) (d : ℕ) (hdim : UniformDim env d)
    (q : String) (hist : List Message) :
    ∃ bl, checkDuplicates env q hist = .ok bl := by
  induction hist with
  | nil => exact ⟨false, rfl⟩
  | cons m rest ih =>
    by_cases hr : m.role = Role.human
    · obtain ⟨bl, hbl⟩ := areQuestionsSimilar_ok env d hdim q m.content (0.85 : ℝ)
      cases bl with
      | true => exact ⟨true, by simp only [checkDuplicates]; rw [if_pos hr, hbl]⟩
      | false =>
        obtain ⟨bl2, hbl2⟩ := ih
        refine ⟨bl2, ?_⟩
        simp only [checkDuplicates]
        rw [if_pos hr, hbl]
        exact hbl2
    · obtain ⟨bl2, hbl2⟩ := ih
      refine ⟨bl2, ?_⟩
      simp only [checkDuplicates]
      rw [if_neg hr]
      exact hbl2

/-- If some human-authored message of the history is ≥ 0.85-similar to the
question (and no earlier check can throw, by uniform dimension), the scan
reports a duplicate. -/
theorem checkDuplicates_eq_true (env : Env) (d : ℕ) (hdim : UniformDim env d)
    (q : String) (hist : List Message)
    (hex : ∃ m ∈ hist, m.role = Role.human ∧
      ∃ s, cosineSimilarity (env.embed q) (env.embed m.content) = .ok s ∧
        (0.85 : ℝ) ≤ s) :
    checkDuplicates env q hist = .ok true := by
  induction hist with
  | nil => simp at hex
  | cons m rest ih =>
    obtain ⟨m0, hm0, hrole, hs⟩ := hex
    by_cases hr : m.role = Role.human
    · obtain ⟨bl, hbl⟩ := areQuestionsSimilar_ok env d hdim q m.content (0.85 : ℝ)
      cases bl with
      | true => simp only [checkDuplicates]; rw [if_pos hr, hbl]
      | false =>
        simp only [checkDuplicates]
        rw [if_pos hr, hbl]
        rcases List.mem_cons.mp hm0 with rfl | hmem
        · exfalso
          have htrue : areQuestionsSimilar env q m0.content (0.85 : ℝ) = .ok true :=
            (areQuestionsSimilar_true_iff env q m0.content (0.85 : ℝ)).mpr hs
          rw [htrue] at hbl
          exact Bool.noConfusion (Except.ok.inj hbl)
        · exact ih ⟨m0, hmem, hrole, hs⟩
    · simp only [checkDuplicates]
      rw [if_neg hr]
      rcases List.mem_cons.mp hm0 with rfl | hmem
      · exact absurd hrole hr
      · exact ih ⟨m0, hmem, hrole, hs⟩

/-- After `getSessionHistory`, the store maps the session id to exactly the
history that was returned (lazy creation included). -/
theorem getSessionHistory_store_self (sid : String) (st : PipelineState) :
    ((getSessionHistory sid st).2).chatHistoriesStore sid =
      some ((getSessionHistory sid st).1) := by
  unfold getSessionHistory
  cases h : st.chatHistoriesStore sid with
  | some hist => simp [h]
  | none => simp [h]

theorem getSessionHistory_currentModel (sid : String) (st : PipelineState) :
    ((getSessionHistory sid st).2).currentModel = st.currentModel := by
  unfold getSessionHistory
  cases h : st.chatHistoriesStore sid <;> simp [h]

theorem getSessionHistory_of_store (sid : String) (st : PipelineState)
    (h : List Message) (hst : st.chatHistoriesStore sid = some h) :
    getSessionHistory sid st = (h, st) := by
  unfold getSessionHistory
  rw [hst]

/-- Shape of `getResponse` on the duplicate path. -/
theorem getResponse_of_dup (env : Env) (q sid : String) (st : PipelineState)
    (hdup : checkDuplicates env q (getSessionHistory sid st).1 = .ok true) :
    getResponse env q sid st =
      (.ok duplicateAdvisoryMessage, (getSessionHistory sid st).2, []) := by
  simp only [getResponse]
  rw [hdup]

/-- C7: cosine similarity is symmetric: for every pair of vectors the two
computations agree (on mismatched lengths both raise the same error). -/
theorem cosineSimilarity_symmetric (a b : List ℝ) :
    cosineSimilarity a b = cosineSimilarity b a := by
  by_cases h : a.length = b.length
  · by_cases h0 : sumSq a = 0 ∨ sumSq b = 0
    · rw [cosineSimilarity_ok_of_zero a b h h0,
        cosineSimilarity_ok_of_zero b a h.symm (Or.symm h0)]
    · push_neg at h0
      rw [cosineSimilarity_ok_of_ne_zero a b h h0.1 h0.2,
        cosineSimilarity_ok_of_ne_zero b a h.symm h0.2 h0.1,
        dotProduct_comm a b, mul_comm]
  · rw [(cosineSimilarity_error_iff a b).mpr h,
      (cosineSimilarity_error_iff b a).mpr fun hc => h hc.symm]

/-- C1: for every incoming question and every session, if some prior
human-authored message of that session's history has embedding-cosine
similarity ≥ 0.85 with the question (the duplicate threshold; embeddings of
uniform dimension, as with a single embedding model), then `getResponse`
returns the fixed duplicate-advisory message with an EMPTY external-call
trace: no retrieval and no language-model invocation happen. -/
theorem duplicate_guard_short_circuits (env : Env) (d : ℕ) (hdim : UniformDim env d)
    (userQuestion sessionId : String) (st : PipelineState)
    (hdup : ∃ m ∈ (getSessionHistory sessionId st).1, m.role = Role.human ∧
      ∃ s, cosineSimilarity (env.embed userQuestion) (env.embed m.content) = .ok s ∧
        (0.85 : ℝ) ≤ s) :
    getResponse env userQuestion sessionId st =
      (.ok duplicateAdvisoryMessage, (getSessionHistory sessionId st).2, []) :=
  getResponse_of_dup env userQuestion sessionId st
    (checkDuplicates_eq_true env d hdim userQuestion _ hdup)

/-! ### Concrete environments used by the witnesses -/

/-- A document with a url, used where document contents are irrelevant. -/
def docPlain : Document :=
  { pageContent := "doc", metadata := some { url := some "https://docs.apostrophecms.org/x" } }

/-- Environment whose embedding provider sends every text to `[1]`: every
similarity evaluates to 1, so the duplicate guard fires on any human history
and every confidence score clears the gate. -/
def envOnes : Env :=
  { embed := fun _ => [1]
    retrieve := fun _ => [docPlain]
    chatModelEnv := none
    rephrase := fun _ _ _ => .ok "ctx"
    answerLlm := fun _ _ _ _ => .ok "ANS" }

/-- A state whose session "s" already holds one human question "old". -/
def stWithOld : PipelineState :=
  { chatHistoriesStore := fun k => if k = "s" then some [⟨Role.human, "old"⟩] else none
    currentModel := none }

theorem cos_single_one : cosineSimilarity [(1 : ℝ)] [(1 : ℝ)] = .ok 1 := by
  have h := cosineSimilarity_ok_of_ne_zero [(1 : ℝ)] [(1 : ℝ)] rfl
    (by norm_num [sumSq]) (by norm_num [sumSq])
  rw [h]
  norm_num [dotProduct, sumSq, Real.sqrt_one]

theorem stWithOld_history : getSessionHistory "s" stWithOld = ([⟨Role.human, "old"⟩], stWithOld) :=
  getSessionHistory_of_store "s" stWithOld _ (by simp [stWithOld])

/-- Witness for C1: in `envOnes`, the question "q" is 1 ≥ 0.85 similar to
the stored human question "old" of session "s", and `getResponse` returns
the advisory with an empty trace. -/
theorem duplicate_guard_short_circuits_witness :
    UniformDim envOnes 1 ∧
    (∃ m ∈ (getSessionHistory "s" stWithOld).1, m.role = Role.human ∧
      ∃ s, cosineSimilarity (envOnes.embed "q") (envOnes.embed m.content) = .ok s ∧
        (0.85 : ℝ) ≤ s) ∧
    getResponse envOnes "q" "s" stWithOld =
      (.ok duplicateAdvisoryMessage, (getSessionHistory "s" stWithOld).2, []) := by
  have hdim : UniformDim envOnes 1 := fun _ => rfl
  have hdup : ∃ m ∈ (getSessionHistory "s" stWithOld).1, m.role = Role.human ∧
      ∃ s, cosineSimilarity (envOnes.embed "q") (envOnes.embed m.content) = .ok s ∧
        (0.85 : ℝ) ≤ s := by
    rw [stWithOld_history]
    exact ⟨⟨Role.human, "old"⟩, by simp, rfl, 1, cos_single_one, by norm_num⟩
  exact ⟨hdim, hdup,
    duplicate_guard_short_circuits envOnes 1 hdim "q" "s" stWithOld hdup⟩

/-! ### The confidence gate -/

/-- One confidence score is produced per retrieved document. -/
theorem computeScores_length (env : Env) (q : String) (docs : List Document)
    (scores : List ℝ) (h : computeScores env q docs = .ok scores) :
    scores.length = docs.length := by
  induction docs generalizing scores with
  | nil =>
    have hh := Except.ok.inj h
    rw [← hh]
    rfl
  | cons doc rest ih =>
    simp only [computeScores] at h
    cases hg : getConfidenceScore env q doc.pageContent with
    | error e => rw [hg] at h; cases h
    | ok s =>
      rw [hg] at h
      cases hrest : computeScores env q rest with
      | error e => rw [hrest] at h; cases h
      | ok rs =>
        rw [hrest] at h
        have hh := Except.ok.inj h
        rw [← hh, List.length_cons, List.length_cons, ih rs hrest]

/-- Which external calls are language-model invocations (the
contextualization call and the grounded-answer call). -/
def isLlmEvent : Event → Bool
  | .retrieveEv _ => false
  | .rephraseEv => true
  | .answerEv _ => true

/-- Shape of `getResponse` when the guard passes and retrieval is empty. -/
theorem getResponse_of_empty (env : Env) (q sid : String) (st : PipelineState)
    (hpass : checkDuplicates env q (getSessionHistory sid st).1 = .ok false)
    (hret : env.retrieve q = []) :
    getResponse env q sid st =
      (.ok emptyKnowledgeBaseMessage, (getSessionHistory sid st).2, [.retrieveEv q]) := by
  simp only [getResponse, hpass, hret]
  rfl

/-- Shape of `getResponse` when the guard passes but the best confidence
score is below the threshold. -/
theorem getResponse_of_lowconf (env : Env) (q sid : String) (st : PipelineState)
    (scores : List ℝ)
    (hpass : checkDuplicates env q (getSessionHistory sid st).1 = .ok false)
    (hscores : computeScores env q (env.retrieve q) = .ok scores)
    (hne : scores.length ≠ 0)
    (hlow : maxScores scores < confidenceThreshold) :
    getResponse env q sid st =
      (.ok lowConfidenceMessage, (getSessionHistory sid st).2, [.retrieveEv q]) := by
  simp only [getResponse, hpass, hscores]
  rw [if_neg hne, if_pos hlow]

/-- Shape of `getResponse` when both the guard and the gate pass: chain
setup and invocation. -/
theorem getResponse_of_pass (env : Env) (q sid : String) (st : PipelineState)
    (scores : List ℝ)
    (hpass : checkDuplicates env q (getSessionHistory sid st).1 = .ok false)
    (hscores : computeScores env q (env.retrieve q) = .ok scores)
    (hne : scores.length ≠ 0)
    (hok : ¬ maxScores scores < confidenceThreshold) :
    getResponse env q sid st =
      (let st1 := (getSessionHistory sid st).2
       let modelName := (setupLlmAndDb env st1).1
       let st2 := (setupLlmAndDb env st1).2
       let r := conversationalRagChainInvoke env modelName q sid st2
       (r.1, r.2.1, .retrieveEv q :: r.2.2)) := by
  simp only [getResponse, hpass, hscores]
  rw [if_neg hne, if_neg hok]

/-- C2: for every question that passes the duplicate guard: with zero
retrieved documents `getResponse` returns the fixed empty-knowledge-base
message; with documents whose maximum confidence score is below 0.7 it
returns the fixed low-confidence message; in both cases the trace is the
single retrieval call — the language model is never invoked; otherwise the
pipeline proceeds to chain setup and invocation (answering). -/
theorem confidence_gate (env : Env) (q sid : String) (st : PipelineState)
    (hpass : checkDuplicates env q (getSessionHistory sid st).1 = .ok false) :
    (env.retrieve q = [] →
      getResponse env q sid st =
        (.ok emptyKnowledgeBaseMessage, (getSessionHistory sid st).2, [.retrieveEv q]) ∧
      ∀ e ∈ (getResponse env q sid st).2.2, isLlmEvent e = false) ∧
    (∀ scores, env.retrieve q ≠ [] →
      computeScores env q (env.retrieve q) = .ok scores →
      maxScores scores < confidenceThreshold →
      getResponse env q sid st =
        (.ok lowConfidenceMessage, (getSessionHistory sid st).2, [.retrieveEv q]) ∧
      ∀ e ∈ (getResponse env q sid st).2.2, isLlmEvent e = false) ∧
    (∀ scores, env.retrieve q ≠ [] →
      computeScores env q (env.retrieve q) = .ok scores →
      ¬ maxScores scores < confidenceThreshold →
      getResponse env q sid st =
        (let st1 := (getSessionHistory sid st).2
         let modelName := (setupLlmAndDb env st1).1
         let st2 := (setupLlmAndDb env st1).2
         let r := conversationalRagChainInvoke env modelName q sid st2
         (r.1, r.2.1, .retrieveEv q :: r.2.2))) := by
  refine ⟨fun hret => ?_, fun scores hret hscores hlow => ?_,
    fun scores hret hscores hok => ?_⟩
  · rw [getResponse_of_empty env q sid st hpass hret]
    exact ⟨rfl, by intro e he; simp at he; rw [he]; rfl⟩
  · have hne : scores.length ≠ 0 := by
      rw [computeScores_length env q _ scores hscores]
      simpa using hret
    rw [getResponse_of_lowconf env q sid st scores hpass hscores hne hlow]
    exact ⟨rfl, by intro e he; simp at he; rw [he]; rfl⟩
  · have hne : scores.length ≠ 0 := by
      rw [computeScores_length env q _ scores hscores]
      simpa using hret
    exact getResponse_of_pass env q sid st scores hpass hscores hne hok

/-- Environment with an empty knowledge base: retrieval returns nothing. -/
def envEmptyKb : Env :=
  { embed := fun _ => [1]
    retrieve := fun _ => []
    chatModelEnv := none
    rephrase := fun _ _ _ => .ok "ctx"
    answerLlm := fun _ _ _ _ => .ok "ANS" }

/-- A url-less document with page content "D". -/
def docD : Document := { pageContent := "D", metadata := none }

/-- Environment whose embeddings make the question "Q" orthogonal to every
document: all confidence scores are 0. -/
def envLow : Env :=
  { embed := fun s => if s = "Q" then [1, 0] else [0, 1]
    retrieve := fun _ => [docD]
    chatModelEnv := none
    rephrase := fun _ _ _ => .ok "ctx"
    answerLlm := fun _ _ _ _ => .ok "ANS" }

theorem cos_orth : cosineSimilarity [(1 : ℝ), 0] [(0 : ℝ), 1] = .ok 0 := by
  have h := cosineSimilarity_ok_of_ne_zero [(1 : ℝ), 0] [(0 : ℝ), 1] rfl
    (by norm_num [sumSq]) (by norm_num [sumSq])
  rw [h]
  norm_num [dotProduct, sumSq]

theorem computeScores_envLow : computeScores envLow "Q" [docD] = .ok [0] := by
  have h1 : envLow.embed "Q" = [(1 : ℝ), 0] := by simp [envLow]
  have h2 : envLow.embed "D" = [(0 : ℝ), 1] := by simp [envLow]
  simp only [computeScores, getConfidenceScore, docD]
  rw [h1, h2, cos_orth]

theorem computeScores_envOnes (q : String) :
    computeScores envOnes q [docPlain] = .ok [1] := by
  have h1 : envOnes.embed q = [(1 : ℝ)] := rfl
  have h2 : envOnes.embed "doc" = [(1 : ℝ)] := rfl
  simp only [computeScores, getConfidenceScore, docPlain]
  rw [h1, h2, cos_single_one]

/-- Witness for C2: all three gate outcomes at concrete inputs — empty
retrieval yields the empty-knowledge-base message, an all-below-threshold
score list yields the low-confidence message, and a passing score proceeds
to chain setup and invocation. -/
theorem confidence_gate_witness :
    checkDuplicates envEmptyKb "q" (getSessionHistory "s" initialState).1 = .ok false ∧
    envEmptyKb.retrieve "q" = [] ∧
    getResponse envEmptyKb "q" "s" initialState =
      (.ok emptyKnowledgeBaseMessage, (getSessionHistory "s" initialState).2,
        [.retrieveEv "q"]) ∧
    checkDuplicates envLow "Q" (getSessionHistory "s" initialState).1 = .ok false ∧
    computeScores envLow "Q" (envLow.retrieve "Q") = .ok [0] ∧
    maxScores [0] < confidenceThreshold ∧
    getResponse envLow "Q" "s" initialState =
      (.ok lowConfidenceMessage, (getSessionHistory "s" initialState).2,
        [.retrieveEv "Q"]) ∧
    checkDuplicates envOnes "q" (getSessionHistory "s" initialState).1 = .ok false ∧
    computeScores envOnes "q" (envOnes.retrieve "q") = .ok [1] ∧
    ¬ maxScores [1] < confidenceThreshold ∧
    getResponse envOnes "q" "s" initialState =
      (let st1 := (getSessionHistory "s" initialState).2
       let modelName := (setupLlmAndDb envOnes st1).1
       let st2 := (setupLlmAndDb envOnes st1).2
       let r := conversationalRagChainInvoke envOnes modelName "q" "s" st2
       (r.1, r.2.1, .retrieveEv "q" :: r.2.2)) := by
  have hpass1 : checkDuplicates envEmptyKb "q" (getSessionHistory "s" initialState).1 =
      .ok false := rfl
  have hret1 : envEmptyKb.retrieve "q" = [] := rfl
  have g1 := (confidence_gate envEmptyKb "q" "s" initialState hpass1).1 hret1
  have hpass2 : checkDuplicates envLow "Q" (getSessionHistory "s" initialState).1 =
      .ok false := rfl
  have hsc2 : computeScores envLow "Q" (envLow.retrieve "Q") = .ok [0] :=
    computeScores_envLow
  have hretne2 : envLow.retrieve "Q" ≠ [] := by simp [envLow]
  have hlow2 : maxScores [0] < confidenceThreshold := by
    norm_num [maxScores, confidenceThreshold]
  have g2 := ((confidence_gate envLow "Q" "s" initialState hpass2).2.1) [0]
    hretne2 hsc2 hlow2
  have hpass3 : checkDuplicates envOnes "q" (getSessionHistory "s" initialState).1 =
      .ok false := rfl
  have hsc3 : computeScores envOnes "q" (envOnes.retrieve "q") = .ok [1] :=
    computeScores_envOnes "q"
  have hretne3 : envOnes.retrieve "q" ≠ [] := by simp [envOnes]
  have hok3 : ¬ maxScores [1] < confidenceThreshold := by
    norm_num [maxScores, confidenceThreshold]
  have g3 := ((confidence_gate envOnes "q" "s" initialState hpass3).2.2) [1]
    hretne3 hsc3 hok3
  exact ⟨hpass1, hret1, g1.1, hpass2, hsc2, hlow2, g2.1, hpass3, hsc3, hok3, g3⟩

/-! ### The conversational chain -/

theorem setupLlmAndDb_fst (env : Env) (st : PipelineState) :
    (setupLlmAndDb env st).1 = chooseModelName env.chatModelEnv := rfl

theorem setupLlmAndDb_store (env : Env) (st : PipelineState) :
    ((setupLlmAndDb env st).2).chatHistoriesStore = st.chatHistoriesStore := rfl

/-- On success the rag chain hands the answering model exactly the
documents retrieved for the contextualized query (no filtering), records
that in the trace, and with an empty chat history the contextualized query
is the raw input. -/
theorem invokeRagChain_ok_elim (env : Env) (modelName input : String)
    (hist : List Message) (ans : String) (docs : List Document) (evs : List Event)
    (h : invokeRagChain env modelName input hist = (.ok (ans, docs), evs)) :
    ∃ cq, docs = env.retrieve cq ∧ Event.answerEv docs ∈ evs ∧
      (hist = [] → cq = input) := by
  unfold invokeRagChain at h
  by_cases hh : hist = []
  · rw [if_pos hh] at h
    dsimp only at h
    cases ha : env.answerLlm modelName input hist (env.retrieve input) with
    | error e => rw [ha] at h; simp at h
    | ok a =>
      rw [ha] at h
      simp only [Prod.mk.injEq, Except.ok.injEq] at h
      obtain ⟨⟨h1, h2⟩, h3⟩ := h
      refine ⟨input, h2.symm, ?_, fun _ => rfl⟩
      rw [← h3, ← h2]
      simp
  · rw [if_neg hh] at h
    cases hre : env.rephrase modelName input hist with
    | error e => rw [hre] at h; simp at h
    | ok cq =>
      rw [hre] at h
      dsimp only at h
      cases ha : env.answerLlm modelName input hist (env.retrieve cq) with
      | error e => rw [ha] at h; simp at h
      | ok a =>
        rw [ha] at h
        simp only [Prod.mk.injEq, Except.ok.injEq] at h
        obtain ⟨⟨h1, h2⟩, h3⟩ := h
        refine ⟨cq, h2.symm, ?_, fun h0 => absurd h0 hh⟩
        rw [← h3, ← h2]
        simp

/-- The message-history wrapper on a failed chain run: the error propagates
and the state is returned unchanged. -/
theorem conversationalRagChainInvoke_error (env : Env) (modelName input sid : String)
    (st : PipelineState) (hist : List Message) (e : String) (evs : List Event)
    (hstore : st.chatHistoriesStore sid = some hist)
    (hfail : invokeRagChain env modelName input hist = (.error e, evs)) :
    conversationalRagChainInvoke env modelName input sid st = (.error e, st, evs) := by
  simp only [conversationalRagChainInvoke,
    getSessionHistory_of_store sid st hist hstore, hfail]

/-- The message-history wrapper on a successful chain run: the question and
the answer are appended to the session history, in that order. -/
theorem conversationalRagChainInvoke_ok (env : Env) (modelName input sid : String)
    (st : PipelineState) (hist : List Message) (ans : String)
    (docs : List Document) (evs : List Event)
    (hstore : st.chatHistoriesStore sid = some hist)
    (hok : invokeRagChain env modelName input hist = (.ok (ans, docs), evs)) :
    conversationalRagChainInvoke env modelName input sid st =
      (.ok ans,
       { st with chatHistoriesStore := fun k =>
           (if k = sid then some (hist ++ [⟨Role.human, input⟩, ⟨Role.ai, ans⟩])
            else st.chatHistoriesStore k) },
       evs) := by
  simp only [conversationalRagChainInvoke,
    getSessionHistory_of_store sid st hist hstore, hok]

/-- C4: on the answering path (duplicate guard and confidence gate both
passed): if the chain's language-model run fails, the error propagates to
the caller and the session's message history is unchanged — zero messages
appended; on success exactly two messages are appended to the session: the
human question and then the produced answer, in that order. -/
theorem answering_atomic_history (env : Env) (q sid : String) (st : PipelineState)
    (scores : List ℝ)
    (hpass : checkDuplicates env q (getSessionHistory sid st).1 = .ok false)
    (hscores : computeScores env q (env.retrieve q) = .ok scores)
    (hne : env.retrieve q ≠ [])
    (hok : ¬ maxScores scores < confidenceThreshold) :
    (∀ e evs, invokeRagChain env (chooseModelName env.chatModelEnv) q
        (getSessionHistory sid st).1 = (.error e, evs) →
      (getResponse env q sid st).1 = .error e ∧
      (getResponse env q sid st).2.1.chatHistoriesStore sid =
        some ((getSessionHistory sid st).1)) ∧
    (∀ ans docs evs, invokeRagChain env (chooseModelName env.chatModelEnv) q
        (getSessionHistory sid st).1 = (.ok (ans, docs), evs) →
      (getResponse env q sid st).1 = .ok ans ∧
      (getResponse env q sid st).2.1.chatHistoriesStore sid =
        some ((getSessionHistory sid st).1 ++ [⟨Role.human, q⟩, ⟨Role.ai, ans⟩])) := by
  have hne' : scores.length ≠ 0 := by
    rw [computeScores_length env q _ scores hscores]
    simpa using hne
  have hshape := getResponse_of_pass env q sid st scores hpass hscores hne' hok
  have hstore2 : ((setupLlmAndDb env (getSessionHistory sid st).2).2).chatHistoriesStore
      sid = some ((getSessionHistory sid st).1) := by
    rw [setupLlmAndDb_store]
    exact getSessionHistory_store_self sid st
  constructor
  · intro e evs hfail
    have hc := conversationalRagChainInvoke_error env (chooseModelName env.chatModelEnv)
      q sid ((setupLlmAndDb env (getSessionHistory sid st).2).2)
      ((getSessionHistory sid st).1) e evs hstore2 hfail
    rw [hshape]
    simp only [setupLlmAndDb_fst, hc]
    exact ⟨trivial, hstore2⟩
  · intro ans docs evs hsucc
    have hc := conversationalRagChainInvoke_ok env (chooseModelName env.chatModelEnv)
      q sid ((setupLlmAndDb env (getSessionHistory sid st).2).2)
      ((getSessionHistory sid st).1) ans docs evs hstore2 hsucc
    rw [hshape]
    simp only [setupLlmAndDb_fst, hc]
    refine ⟨trivial, ?_⟩
    simp

/-- Like `envOnes`, but the grounded-answer model call always fails. -/
def envFailLlm : Env :=
  { embed := fun _ => [1]
    retrieve := fun _ => [docPlain]
    chatModelEnv := none
    rephrase := fun _ _ _ => .ok "ctx"
    answerLlm := fun _ _ _ _ => .error "boom" }

theorem computeScores_envFailLlm : computeScores envFailLlm "q" [docPlain] = .ok [1] := by
  have h1 : envFailLlm.embed "q" = [(1 : ℝ)] := rfl
  have h2 : envFailLlm.embed "doc" = [(1 : ℝ)] := rfl
  simp only [computeScores, getConfidenceScore, docPlain]
  rw [h1, h2, cos_single_one]

/-- Witness for C4: in `envOnes` the chain succeeds and session "s" ends
with exactly [human "q", ai "ANS"]; in `envFailLlm` the chain fails, the
error "boom" propagates, and the history stays empty. -/
theorem answering_atomic_history_witness :
    checkDuplicates envOnes "q" (getSessionHistory "s" initialState).1 = .ok false ∧
    computeScores envOnes "q" (envOnes.retrieve "q") = .ok [1] ∧
    envOnes.retrieve "q" ≠ [] ∧
    ¬ maxScores [1] < confidenceThreshold ∧
    invokeRagChain envOnes (chooseModelName envOnes.chatModelEnv) "q"
      (getSessionHistory "s" initialState).1 =
      (.ok ("ANS", [docPlain]), [.retrieveEv "q", .answerEv [docPlain]]) ∧
    (getResponse envOnes "q" "s" initialState).1 = .ok "ANS" ∧
    (getResponse envOnes "q" "s" initialState).2.1.chatHistoriesStore "s" =
      some ((getSessionHistory "s" initialState).1 ++
        [⟨Role.human, "q"⟩, ⟨Role.ai, "ANS"⟩]) ∧
    invokeRagChain envFailLlm (chooseModelName envFailLlm.chatModelEnv) "q"
      (getSessionHistory "s" initialState).1 =
      (.error "boom", [.retrieveEv "q", .answerEv [docPlain]]) ∧
    (getResponse envFailLlm "q" "s" initialState).1 = .error "boom" ∧
    (getResponse envFailLlm "q" "s" initialState).2.1.chatHistoriesStore "s" =
      some ((getSessionHistory "s" initialState).1) := by
  have hokA := (answering_atomic_history envOnes "q" "s" initialState [1] rfl
    (computeScores_envOnes "q") (by simp [envOnes])
    (by norm_num [maxScores, confidenceThreshold])).2
    "ANS" [docPlain] [.retrieveEv "q", .answerEv [docPlain]] rfl
  have hokB := (answering_atomic_history envFailLlm "q" "s" initialState [1] rfl
    computeScores_envFailLlm (by simp [envFailLlm])
    (by norm_num [maxScores, confidenceThreshold])).1
    "boom" [.retrieveEv "q", .answerEv [docPlain]] rfl
  exact ⟨rfl, computeScores_envOnes "q", by simp [envOnes],
    by norm_num [maxScores, confidenceThreshold], rfl, hokA.1, hokA.2,
    rfl, hokB.1, hokB.2⟩

/-! ### The documents handed to the answering stage (C3, C5) -/

theorem cos_e1_e1 : cosineSimilarity [(1 : ℝ), 0] [(1 : ℝ), 0] = .ok 1 := by
  have h := cosineSimilarity_ok_of_ne_zero [(1 : ℝ), 0] [(1 : ℝ), 0] rfl
    (by norm_num [sumSq]) (by norm_num [sumSq])
  rw [h]
  norm_num [dotProduct, sumSq, Real.sqrt_one]

/-- C3 (amended): when the confidence gate passes, no per-document
filtering is applied anywhere; the answering model receives exactly the
full set of documents retrieved for the contextualized query, and when the
session history is empty the contextualized query is the original question,
so the answering set coincides with the gate-scored set (with a non-empty
history the chain re-retrieves with the rewritten query, which may yield a
different set). -/
theorem answering_docs_unfiltered (env : Env) (q sid : String) (st : PipelineState)
    (scores : List ℝ)
    (hpass : checkDuplicates env q (getSessionHistory sid st).1 = .ok false)
    (hscores : computeScores env q (env.retrieve q) = .ok scores)
    (hne : env.retrieve q ≠ [])
    (hok : ¬ maxScores scores < confidenceThreshold)
    (ans : String) (docs : List Document) (evs : List Event)
    (hchain : invokeRagChain env (chooseModelName env.chatModelEnv) q
      (getSessionHistory sid st).1 = (.ok (ans, docs), evs)) :
    Event.answerEv docs ∈ (getResponse env q sid st).2.2 ∧
    (∃ cq, docs = env.retrieve cq) ∧
    ((getSessionHistory sid st).1 = [] → docs = env.retrieve q) := by
  obtain ⟨cq, hdocs, hmem, hempty⟩ :=
    invokeRagChain_ok_elim env (chooseModelName env.chatModelEnv) q
      (getSessionHistory sid st).1 ans docs evs hchain
  have hne' : scores.length ≠ 0 := by
    rw [computeScores_length env q _ scores hscores]
    simpa using hne
  have hshape := getResponse_of_pass env q sid st scores hpass hscores hne' hok
  have hstore2 : ((setupLlmAndDb env (getSessionHistory sid st).2).2).chatHistoriesStore
      sid = some ((getSessionHistory sid st).1) := by
    rw [setupLlmAndDb_store]
    exact getSessionHistory_store_self sid st
  have hc := conversationalRagChainInvoke_ok env (chooseModelName env.chatModelEnv)
    q sid ((setupLlmAndDb env (getSessionHistory sid st).2).2)
    ((getSessionHistory sid st).1) ans docs evs hstore2 hchain
  refine ⟨?_, ⟨cq, hdocs⟩, fun h0 => by rw [hdocs, hempty h0]⟩
  rw [hshape]
  simp only [setupLlmAndDb_fst, hc]
  exact List.mem_cons_of_mem _ hmem

/-- Witness for the amended C3: in `envOnes` from a fresh session the
history is empty, so the answering model receives exactly the gate-scored
set `[docPlain]`. -/
theorem answering_docs_unfiltered_witness :
    checkDuplicates envOnes "q" (getSessionHistory "s" initialState).1 = .ok false ∧
    computeScores envOnes "q" (envOnes.retrieve "q") = .ok [1] ∧
    envOnes.retrieve "q" ≠ [] ∧
    ¬ maxScores [1] < confidenceThreshold ∧
    invokeRagChain envOnes (chooseModelName envOnes.chatModelEnv) "q"
      (getSessionHistory "s" initialState).1 =
      (.ok ("ANS", [docPlain]), [.retrieveEv "q", .answerEv [docPlain]]) ∧
    Event.answerEv [docPlain] ∈ (getResponse envOnes "q" "s" initialState).2.2 ∧
    (∃ cq, [docPlain] = envOnes.retrieve cq) ∧
    ((getSessionHistory "s" initialState).1 = [] →
      [docPlain] = envOnes.retrieve "q") := by
  have h := answering_docs_unfiltered envOnes "q" "s" initialState [1] rfl
    (computeScores_envOnes "q") (by simp [envOnes])
    (by norm_num [maxScores, confidenceThreshold])
    "ANS" [docPlain] [.retrieveEv "q", .answerEv [docPlain]] rfl
  exact ⟨rfl, computeScores_envOnes "q", by simp [envOnes],
    by norm_num [maxScores, confidenceThreshold], rfl, h.1, h.2.1, h.2.2⟩

/-- Document returned for the gate-time retrieval in the C3 counterexample. -/
def docA : Document :=
  { pageContent := "docA", metadata := some { url := some "https://docs.apostrophecms.org/A" } }

/-- Document returned for the chain-time (contextualized) retrieval. -/
def docB : Document :=
  { pageContent := "docB", metadata := some { url := some "https://docs.apostrophecms.org/B" } }

/-- Environment for the C3 counterexample: the stored question "old" is
orthogonal to "q" (guard passes), "q" scores 1 against docA (gate passes),
but the chain rewrites the query to "standalone q", for which the retriever
returns docB instead. -/
def envC3 : Env :=
  { embed := fun s => if s = "old" then [0, 1] else [1, 0]
    retrieve := fun query => if query = "q" then [docA] else [docB]
    chatModelEnv := none
    rephrase := fun _ _ _ => .ok "standalone q"
    answerLlm := fun _ _ _ _ => .ok "ANS" }

/-- Session "s" already holds the human question "old". -/
def stC3 : PipelineState :=
  { chatHistoriesStore := fun k => if k = "s" then some [⟨Role.human, "old"⟩] else none
    currentModel := none }

theorem stC3_history : getSessionHistory "s" stC3 = ([⟨Role.human, "old"⟩], stC3) :=
  getSessionHistory_of_store "s" stC3 _ (by simp [stC3])

/-- C3 counterexample: the gate scores the set [docA] (retrieved for "q"),
the pipeline proceeds, but the answering model is invoked on [docB] — the
set re-retrieved for the contextualized query "standalone q" — so the
grounded answer is NOT generated from the set the gate scored. -/
theorem answering_docs_not_gate_set :
    envC3.retrieve "q" = [docA] ∧
    computeScores envC3 "q" (envC3.retrieve "q") = .ok [1] ∧
    ¬ maxScores [1] < confidenceThreshold ∧
    (getResponse envC3 "q" "s" stC3).1 = .ok "ANS" ∧
    (getResponse envC3 "q" "s" stC3).2.2 =
      [.retrieveEv "q", .rephraseEv, .retrieveEv "standalone q", .answerEv [docB]] ∧
    docB ≠ docA := by
  have hembQ : envC3.embed "q" = [(1 : ℝ), 0] := by simp [envC3]
  have hembOld : envC3.embed "old" = [(0 : ℝ), 1] := by simp [envC3]
  have hembA : envC3.embed "docA" = [(1 : ℝ), 0] := by simp [envC3]
  have hsim : areQuestionsSimilar envC3 "q" "old" (0.85 : ℝ) = .ok false := by
    unfold areQuestionsSimilar
    rw [hembQ, hembOld, cos_orth]
    dsimp only
    rw [decide_eq_false (by norm_num)]
  have hpass : checkDuplicates envC3 "q" (getSessionHistory "s" stC3).1 = .ok false := by
    rw [stC3_history]
    simp only [checkDuplicates, if_true]
    rw [hsim]
  have hret : envC3.retrieve "q" = [docA] := by simp [envC3]
  have hscores : computeScores envC3 "q" (envC3.retrieve "q") = .ok [1] := by
    rw [hret]
    simp only [computeScores, getConfidenceScore, docA]
    rw [hembQ, hembA, cos_e1_e1]
  have hok : ¬ maxScores [1] < confidenceThreshold := by
    norm_num [maxScores, confidenceThreshold]
  have hchain : invokeRagChain envC3 (chooseModelName envC3.chatModelEnv) "q"
      (getSessionHistory "s" stC3).1 =
      (.ok ("ANS", [docB]),
        [.rephraseEv, .retrieveEv "standalone q", .answerEv [docB]]) := by
    rw [stC3_history]
    rfl
  have hstore2 : ((setupLlmAndDb envC3 (getSessionHistory "s" stC3).2).2).chatHistoriesStore
      "s" = some ((getSessionHistory "s" stC3).1) := by
    rw [setupLlmAndDb_store]
    exact getSessionHistory_store_self "s" stC3
  have hc := conversationalRagChainInvoke_ok envC3 (chooseModelName envC3.chatModelEnv)
    "q" "s" ((setupLlmAndDb envC3 (getSessionHistory "s" stC3).2).2)
    ((getSessionHistory "s" stC3).1) "ANS" [docB]
    [.rephraseEv, .retrieveEv "standalone q", .answerEv [docB]] hstore2 hchain
  have hshape := getResponse_of_pass envC3 "q" "s" stC3 [1] hpass hscores
    (by norm_num) hok
  refine ⟨hret, hscores, hok, ?_, ?_, by decide⟩
  · rw [hshape]
    simp only [setupLlmAndDb_fst, hc]
  · rw [hshape]
    simp only [setupLlmAndDb_fst, hc]

/-- A retrieved document with no metadata at all (so no url). -/
def docNoUrl : Document := { pageContent := "Widget basics", metadata := none }

/-- Environment for the C5 failing input: retrieval returns only the
url-less document, and every similarity is 1. -/
def envC5 : Env :=
  { embed := fun _ => [1]
    retrieve := fun _ => [docNoUrl]
    chatModelEnv := none
    rephrase := fun _ _ _ => .ok "ctx"
    answerLlm := fun _ _ _ _ => .ok "ANS" }

theorem computeScores_envC5 : computeScores envC5 "q" [docNoUrl] = .ok [1] := by
  have h1 : envC5.embed "q" = [(1 : ℝ)] := rfl
  have h2 : envC5.embed "Widget basics" = [(1 : ℝ)] := rfl
  simp only [computeScores, getConfidenceScore, docNoUrl]
  rw [h1, h2, cos_single_one]

/-- C5 failing input: from a fresh session in `envC5` the gate passes and
the answering model is invoked on the RAW retrieved document, whose url is
still missing — `fixDocumentMetadata` (db_singleton.js) is never called on
the retrieval path, although applying it to that document would have
assigned the fallback url the claim describes. -/
theorem document_url_invariant_failing_input :
    docNoUrl.metadata = none ∧
    (getResponse envC5 "q" "s" initialState).1 = .ok "ANS" ∧
    (getResponse envC5 "q" "s" initialState).2.2 =
      [.retrieveEv "q", .retrieveEv "q", .answerEv [docNoUrl]] ∧
    fixDocumentMetadata [docNoUrl] =
      [{ pageContent := "Widget basics",
         metadata := some { url := some defaultDocUrl } }] := by
  have hscores : computeScores envC5 "q" (envC5.retrieve "q") = .ok [1] :=
    computeScores_envC5
  have hchain : invokeRagChain envC5 (chooseModelName envC5.chatModelEnv) "q"
      (getSessionHistory "s" initialState).1 =
      (.ok ("ANS", [docNoUrl]), [.retrieveEv "q", .answerEv [docNoUrl]]) := rfl
  have hstore2 : ((setupLlmAndDb envC5 (getSessionHistory "s" initialState).2).2).chatHistoriesStore
      "s" = some ((getSessionHistory "s" initialState).1) := by
    rw [setupLlmAndDb_store]
    exact getSessionHistory_store_self "s" initialState
  have hc := conversationalRagChainInvoke_ok envC5 (chooseModelName envC5.chatModelEnv)
    "q" "s" ((setupLlmAndDb envC5 (getSessionHistory "s" initialState).2).2)
    ((getSessionHistory "s" initialState).1) "ANS" [docNoUrl]
    [.retrieveEv "q", .answerEv [docNoUrl]] hstore2 hchain
  have hshape := getResponse_of_pass envC5 "q" "s" initialState [1] rfl hscores
    (by norm_num) (by norm_num [maxScores, confidenceThreshold])
  refine ⟨rfl, ?_, ?_, by decide⟩
  · rw [hshape]
    simp only [setupLlmAndDb_fst, hc]
  · rw [hshape]
    simp only [setupLlmAndDb_fst, hc]

/-! ### Vector-store initialization retries (C8) -/

/-- C8 (amended): `_initialize` makes at most 3 connection attempts with
one fixed 2-second wait between consecutive attempts, stops at the first
success, and rethrows the last error when all 3 fail; but app.js
`initChroma` CATCHES that error (only logging it) and `startServer` still
brings the server up listening with no retriever set — exhausting retries
is not a fatal startup error. -/
theorem chroma_init_retries (res : ℕ → Except String Unit) :
    (res 0 = .ok () → chromaInitialize res = (.ok (), [.attemptEv 0])) ∧
    (∀ e0, res 0 = .error e0 → res 1 = .ok () →
      chromaInitialize res = (.ok (), [.attemptEv 0, .waitEv 2000, .attemptEv 1])) ∧
    (∀ e0 e1, res 0 = .error e0 → res 1 = .error e1 → res 2 = .ok () →
      chromaInitialize res =
        (.ok (), [.attemptEv 0, .waitEv 2000, .attemptEv 1, .waitEv 2000,
          .attemptEv 2])) ∧
    (∀ e0 e1 e2, res 0 = .error e0 → res 1 = .error e1 → res 2 = .error e2 →
      chromaInitialize res =
        (.error e2, [.attemptEv 0, .waitEv 2000, .attemptEv 1, .waitEv 2000,
          .attemptEv 2]) ∧
      startServer res =
        { retrieverSet := false, listening := true, chromaError := some e2 }) := by
  refine ⟨fun h0 => ?_, fun e0 h0 h1 => ?_, fun e0 e1 h0 h1 h2 => ?_,
    fun e0 e1 e2 h0 h1 h2 => ?_⟩
  · simp [chromaInitialize, initializeLoop, h0]
  · simp [chromaInitialize, initializeLoop, h0, h1]
  · simp [chromaInitialize, initializeLoop, h0, h1, h2]
  · have hci : chromaInitialize res =
        (.error e2, [.attemptEv 0, .waitEv 2000, .attemptEv 1, .waitEv 2000,
          .attemptEv 2]) := by
      simp [chromaInitialize, initializeLoop, h0, h1, h2]
    refine ⟨hci, ?_⟩
    simp [startServer, initChroma, hci]

/-- Witness for C8: a first-attempt failure followed by a success retries
exactly once after one wait; three failures exhaust the retries and the
server still starts listening without a retriever. -/
theorem chroma_init_retries_witness :
    ((fun n => if n = 0 then (.error "e0" : Except String Unit) else .ok ()) 0 =
      .error "e0") ∧
    ((fun n => if n = 0 then (.error "e0" : Except String Unit) else .ok ()) 1 =
      .ok ()) ∧
    chromaInitialize (fun n => if n = 0 then .error "e0" else .ok ()) =
      (.ok (), [.attemptEv 0, .waitEv 2000, .attemptEv 1]) ∧
    chromaInitialize (fun _ => .error "down") =
      (.error "down", [.attemptEv 0, .waitEv 2000, .attemptEv 1, .waitEv 2000,
        .attemptEv 2]) ∧
    startServer (fun _ => .error "down") =
      { retrieverSet := false, listening := true, chromaError := some "down" } := by
  have h1 := (chroma_init_retries
    (fun n => if n = 0 then .error "e0" else .ok ())).2.1 "e0" rfl rfl
  have h2 := (chroma_init_retries (fun _ => .error "down")).2.2.2 "down" "down" "down"
    rfl rfl rfl
  exact ⟨rfl, rfl, h1, h2.1, h2.2⟩

/-- C8 counterexample: with every connection attempt failing, `_initialize`
does rethrow the last error, but startup does not fail: the server ends up
listening with no retriever — the error was swallowed by `initChroma`. -/
theorem retries_exhausted_startup_continues :
    chromaInitialize (fun _ => .error "connect ECONNREFUSED") =
      (.error "connect ECONNREFUSED",
       [.attemptEv 0, .waitEv 2000, .attemptEv 1, .waitEv 2000, .attemptEv 2]) ∧
    startServer (fun _ => .error "connect ECONNREFUSED") =
      { retrieverSet := false, listening := true,
        chromaError := some "connect ECONNREFUSED" } :=
  ⟨rfl, rfl⟩

/-! ### The default session (C9) and the current-model variable (C10) -/

/-- C9: a call that omits the session id runs against the fixed identifier
"default_session", so all such calls share one message history: after a
successful default-session answer to q1 (guard and gate passed, chain
succeeded), the human question q1 sits in the shared history, and a later
call that also omits the session id and asks a q2 that is ≥ 0.85-similar to
q1 receives the duplicate advisory. -/
theorem default_session_shared (env : Env) (d : ℕ) (hdim : UniformDim env d)
    (q1 q2 : String) (st : PipelineState) (scores : List ℝ)
    (hpass : checkDuplicates env q1 (getSessionHistory "default_session" st).1 =
      .ok false)
    (hscores : computeScores env q1 (env.retrieve q1) = .ok scores)
    (hne : env.retrieve q1 ≠ [])
    (hok : ¬ maxScores scores < confidenceThreshold)
    (ans : String) (docs : List Document) (evs : List Event)
    (hchain : invokeRagChain env (chooseModelName env.chatModelEnv) q1
      (getSessionHistory "default_session" st).1 = (.ok (ans, docs), evs))
    (hsim : ∃ s, cosineSimilarity (env.embed q2) (env.embed q1) = .ok s ∧
      (0.85 : ℝ) ≤ s) :
    getResponseDefault env q1 st = getResponse env q1 "default_session" st ∧
    (getResponseDefault env q1 st).2.1.chatHistoriesStore "default_session" =
      some ((getSessionHistory "default_session" st).1 ++
        [⟨Role.human, q1⟩, ⟨Role.ai, ans⟩]) ∧
    (getResponseDefault env q2 (getResponseDefault env q1 st).2.1).1 =
      .ok duplicateAdvisoryMessage := by
  have h2 := (answering_atomic_history env q1 "default_session" st scores hpass
    hscores hne hok).2 ans docs evs hchain
  refine ⟨rfl, h2.2, ?_⟩
  have hsess2 := getSessionHistory_of_store "default_session"
    (getResponseDefault env q1 st).2.1 _ h2.2
  have hdup : ∃ m ∈ (getSessionHistory "default_session"
      (getResponseDefault env q1 st).2.1).1, m.role = Role.human ∧
      ∃ s, cosineSimilarity (env.embed q2) (env.embed m.content) = .ok s ∧
        (0.85 : ℝ) ≤ s := by
    rw [hsess2]
    exact ⟨⟨Role.human, q1⟩, by simp, rfl, hsim⟩
  have hfinal := getResponse_of_dup env q2 "default_session"
    (getResponseDefault env q1 st).2.1
    (checkDuplicates_eq_true env d hdim q2 _ hdup)
  show (getResponse env q2 "default_session" (getResponseDefault env q1 st).2.1).1 =
    .ok duplicateAdvisoryMessage
  rw [hfinal]

/-- Witness for C9: in `envOnes`, a first default-session call answers "a"
with "ANS"; the second default-session question "b" is 1 ≥ 0.85 similar to
"a" and receives the duplicate advisory. -/
theorem default_session_shared_witness :
    UniformDim envOnes 1 ∧
    checkDuplicates envOnes "a" (getSessionHistory "default_session" initialState).1 =
      .ok false ∧
    computeScores envOnes "a" (envOnes.retrieve "a") = .ok [1] ∧
    envOnes.retrieve "a" ≠ [] ∧
    ¬ maxScores [1] < confidenceThreshold ∧
    invokeRagChain envOnes (chooseModelName envOnes.chatModelEnv) "a"
      (getSessionHistory "default_session" initialState).1 =
      (.ok ("ANS", [docPlain]), [.retrieveEv "a", .answerEv [docPlain]]) ∧
    (∃ s, cosineSimilarity (envOnes.embed "b") (envOnes.embed "a") = .ok s ∧
      (0.85 : ℝ) ≤ s) ∧
    (getResponseDefault envOnes "a" initialState).2.1.chatHistoriesStore
      "default_session" =
      some ((getSessionHistory "default_session" initialState).1 ++
        [⟨Role.human, "a"⟩, ⟨Role.ai, "ANS"⟩]) ∧
    (getResponseDefault envOnes "b"
      (getResponseDefault envOnes "a" initialState).2.1).1 =
      .ok duplicateAdvisoryMessage := by
  have hdim : UniformDim envOnes 1 := fun _ => rfl
  have hsim : ∃ s, cosineSimilarity (envOnes.embed "b") (envOnes.embed "a") =
      .ok s ∧ (0.85 : ℝ) ≤ s := ⟨1, cos_single_one, by norm_num⟩
  have h := default_session_shared envOnes 1 hdim "a" "b" initialState [1] rfl
    (computeScores_envOnes "a") (by simp [envOnes])
    (by norm_num [maxScores, confidenceThreshold])
    "ANS" [docPlain] [.retrieveEv "a", .answerEv [docPlain]] rfl hsim
  exact ⟨hdim, rfl, computeScores_envOnes "a", by simp [envOnes],
    by norm_num [maxScores, confidenceThreshold], rfl, hsim, h.2.1, h.2.2⟩

/-- C10: `getCurrentModel` reports null at module load, and any request
answered on the duplicate-advisory, empty-knowledge-base or low-confidence
path leaves the reported model unchanged — so it stays null until some
request passes both gates and reaches chain setup (where it becomes the
chosen model name). -/
theorem current_model_gated (env : Env) (q sid : String) (st : PipelineState) :
    getCurrentModel initialState = none ∧
    (checkDuplicates env q (getSessionHistory sid st).1 = .ok true →
      getCurrentModel (getResponse env q sid st).2.1 = getCurrentModel st) ∧
    (checkDuplicates env q (getSessionHistory sid st).1 = .ok false →
      env.retrieve q = [] →
      getCurrentModel (getResponse env q sid st).2.1 = getCurrentModel st) ∧
    (∀ scores, checkDuplicates env q (getSessionHistory sid st).1 = .ok false →
      computeScores env q (env.retrieve q) = .ok scores → scores.length ≠ 0 →
      maxScores scores < confidenceThreshold →
      getCurrentModel (getResponse env q sid st).2.1 = getCurrentModel st) := by
  refine ⟨rfl, fun hdup => ?_, fun hpass hret => ?_,
    fun scores hpass hsc hne hlow => ?_⟩
  · rw [getResponse_of_dup env q sid st hdup]
    exact getSessionHistory_currentModel sid st
  · rw [getResponse_of_empty env q sid st hpass hret]
    exact getSessionHistory_currentModel sid st
  · rw [getResponse_of_lowconf env q sid st scores hpass hsc hne hlow]
    exact getSessionHistory_currentModel sid st

theorem areQuestionsSimilar_envOnes_true :
    areQuestionsSimilar envOnes "q" "old" (0.85 : ℝ) = .ok true := by
  unfold areQuestionsSimilar
  rw [show cosineSimilarity (envOnes.embed "q") (envOnes.embed "old") = .ok 1 from
    cos_single_one]
  dsimp only
  rw [decide_eq_true (by norm_num : (0.85 : ℝ) ≤ 1)]

/-- Witness for C10: in `envOnes` against the session holding "old", the
request is answered by the duplicate advisory and the reported model stays
what it was (null). -/
theorem current_model_gated_witness :
    getCurrentModel initialState = none ∧
    checkDuplicates envOnes "q" (getSessionHistory "s" stWithOld).1 = .ok true ∧
    getCurrentModel (getResponse envOnes "q" "s" stWithOld).2.1 =
      getCurrentModel stWithOld ∧
    getCurrentModel stWithOld = none := by
  have hdup : checkDuplicates envOnes "q" (getSessionHistory "s" stWithOld).1 =
      .ok true := by
    rw [stWithOld_history]
    simp only [checkDuplicates, if_true]
    rw [areQuestionsSimilar_envOnes_true]
  have h := current_model_gated envOnes "q" "s" stWithOld
  exact ⟨h.1, hdup, h.2.1 hdup, rfl⟩

end Chatbot
